import Mathlib

set_option autoImplicit false

/-
Shallow embedding of `src/polarion/testrun.py` (class `Testrun`).

The remote test-management collaborator is modelled by explicit parameters:
the result of `getTestRunByUri` is an `Except PErr (Option Snapshot)` value
passed in, and every outgoing service call is recorded in a trace of `Call`
values.  Python exceptions are modelled with `Except`; since an exception
does not roll state back, stateful operations return the (possibly partially
mutated) state alongside the error.  `copy.deepcopy` is the identity on the
immutable Lean values.
-/

namespace Polarion

/-- A raw sub-record element of the snapshot's record collection
(an element of `self._records.TestRecord`).  Modelled from the spec for the
part outside the provided source (class `Record` in `record.py`): each raw
sub-record carries the business key (the referenced test-case identity). -/
structure TRecord where
  testcase_id : String
deriving DecidableEq, Repr

/-- A value stored under a snapshot key and copied onto the mirror by the
flatten loop.  `vNone` is Python `None`; `vRecs` is the record-collection
object, exposing its `TestRecord` list. -/
inductive Value where
  | vNone
  | vStr (s : String)
  | vInt (n : Int)
  | vRecs (trs : List TRecord)
deriving DecidableEq, Repr

/-- The raw remote snapshot (`polarion_test_run`): the `unresolvable` flag
checked by the resolution guard, and the ordered key-value fields that
`__dict__.items()` iteration yields (a Python mapping, so keys are unique
in any snapshot actually produced by the collaborator). -/
structure Snapshot where
  unresolvable : Bool
  fields : List (String × Value)
deriving DecidableEq, Repr

/-- A Sub-Record Mirror (`Record(self._polarion, self, r, index)`).
Modelled from the spec for the part outside the provided source
(`record.py`): the mirror carries its raw sub-record's business key and its
position index in the parent sequence (the iteration ordinal). -/
structure Record where
  testcase_id : String
  index : Nat
deriving DecidableEq, Repr

/-- The failures the embedded code can raise (the source raises plain
`Exception` values with distinguishing messages; Python builtin faults are
kept apart). -/
inductive PErr where
  | notFound (uri : String)
  | configuration
  | notRetrieved
  | invalidIteration
  | indexError
  | keyError (k : String)
  | attributeError (k : String)
  | attachmentNotFound (name : String)
  | remote
deriving DecidableEq, Repr

/-- `self._polarion.ParameterType(name, value)`. -/
structure Param where
  name : String
  value : String
deriving DecidableEq, Repr

/-- `self._polarion.TestRecordType(...)`: test case URI, optional revision,
and the assembled parameter list. -/
structure TestRecordType where
  testCaseURI : String
  testCaseRevision : Option String
  testParameters : List Param
deriving DecidableEq, Repr

/-- One entry of the `test_parameters` argument of `addTestcase`
(a dict with `name` and `value`). -/
structure TestParam where
  name : String
  value : String
deriving DecidableEq, Repr

/-- The attachment reference returned by `getTestRunAttachment`. -/
structure AttachmentRef where
  url : String
deriving DecidableEq, Repr

/-- One outgoing call to the remote collaborator, as recorded in an
operation's trace. -/
inductive Call where
  | getTestRunByUri (uri : Value)
  | updateTestRun (payload : List (String × Value))
  | deleteTestRunAttachment (uri : Value) (fileName : String)
  | addAttachmentToTestRun (uri : Value) (fileName title content : String)
  | updateTestRunAttachment (uri : Value) (fileName title content : String)
  | getTestCaseParameterNames (testCaseUri : String)
  | addTestRecordToTestRun (uri : Value) (rec : TestRecordType)
  | getTestRunAttachment (uri : Value) (fileName : String)
  | downloadFromSvn (url : String)
deriving DecidableEq, Repr

/-- Python dict / attribute-namespace lookup (`d[k]`, `getattr`): keys are
compared by string equality, `none` when absent. -/
def alookup {β : Type} : List (String × β) → String → Option β
  | [], _ => none
  | (k', v) :: rest, k => if k' = k then some v else alookup rest k

/-- Python dict item assignment / `setattr`: overwrite the existing binding
in place, or append a new one at the end. -/
def dinsert {β : Type} : List (String × β) → String → β → List (String × β)
  | [], k, v => [(k, v)]
  | (k', v') :: rest, k, v =>
      if k' = k then (k', v) :: rest else (k', v') :: dinsert rest k v

/-- The mirror state of `class Testrun`: the raw snapshot
(`_polarion_test_run`), the baseline (`_original_polarion_test_run`), the
flattened attribute namespace (`setattr(self, key, ...)` targets, `uri`
included), the privately stored record collection (`self._records`; `none`
means the attribute was never assigned), the sub-record mirrors
(`self.records`) and the index (`self._record_dict`). -/
structure Testrun where
  snapshot : Option Snapshot
  original : Option Snapshot
  attrs : List (String × Value)
  recordsAttr : Option Value
  records : List Record
  record_dict : List (String × List Record)
deriving DecidableEq, Repr

/-- The mirror right after the base-class constructor ran and before any
snapshot handling.  Modelled from the spec for the part outside the provided
source (`base/comments.py`): the base class records the identity URI passed
to it (Python `None` becomes `vNone`). -/
def emptyMirror (uri : Option String) : Testrun :=
  { snapshot := none
    original := none
    attrs := [("uri", match uri with | some u => Value.vStr u | none => Value.vNone)]
    recordsAttr := none
    records := []
    record_dict := [] }

/-- The flatten loop of `_buildWorkitemFromPolarion`: for each snapshot key,
the `records` key is stored under the private name, every other key is
copied onto the mirror's attribute namespace via `setattr`. -/
def flattenFields (t : Testrun) : List (String × Value) → Testrun
  | [] => t
  | (k, v) :: rest =>
      if k = "records" then flattenFields { t with recordsAttr := some v } rest
      else flattenFields { t with attrs := dinsert t.attrs k v } rest

/-- One index insertion of the record build loop: first occurrence of a key
creates its list, later occurrences append to it in place. -/
def dictAppend (d : List (String × List Record)) (k : String) (r : Record) :
    List (String × List Record) :=
  match d with
  | [] => [(k, [r])]
  | (k', rs) :: rest =>
      if k' = k then (k', rs ++ [r]) :: rest else (k', rs) :: dictAppend rest k r

/-- Python `enumerate` starting at `i`. -/
def pyEnumerate (i : Nat) : List TRecord → List (Nat × TRecord)
  | [] => []
  | r :: rest => (i, r) :: pyEnumerate (i + 1) rest

/-- The record build loop of `_buildWorkitemFromPolarion`: for each
`(index, r)` construct the Sub-Record Mirror, append it to `records`, and
append it to `record_dict[testcase_id]`. -/
def buildLoop (t : Testrun) : List (Nat × TRecord) → Testrun
  | [] => t
  | (i, r) :: rest =>
      let nr : Record := { testcase_id := r.testcase_id, index := i }
      buildLoop
        { t with
          records := t.records ++ [nr]
          record_dict := dictAppend t.record_dict nr.testcase_id nr } rest

/-- The sub-record mirrors a raw collection flattens to: one mirror per raw
sub-record, carrying its 0-based position. -/
def recordsOfRaw (trs : List TRecord) : List Record :=
  (pyEnumerate 0 trs).map fun p => { testcase_id := p.2.testcase_id, index := p.1 }

/-- The state after the flatten loop ran on a snapshot's fields and
`self.records = []`, `self._record_dict = {}` were assigned. -/
def flattenReset (t : Testrun) (s : Snapshot) : Testrun :=
  { flattenFields t s.fields with records := [], record_dict := [] }

/-- `Testrun._buildWorkitemFromPolarion`: resolution guard, then the flatten
loop, then reset `records`/`_record_dict` and run the record build loop on
`self._records.TestRecord` when the collection is not `None`.  On a raised
exception the partially mutated state is returned with the error. -/
def _buildWorkitemFromPolarion (t : Testrun) : Except (PErr × Testrun) Testrun :=
  match t.snapshot with
  | none => .error (.notRetrieved, t)
  | some s =>
      if s.unresolvable then .error (.notRetrieved, t)
      else
        match (flattenReset t s).recordsAttr with
        | none => .error (.attributeError "_records", flattenReset t s)
        | some Value.vNone => .ok (flattenReset t s)
        | some (Value.vRecs trs) =>
            .ok (buildLoop (flattenReset t s) (pyEnumerate 0 trs))
        | some _ => .error (.attributeError "TestRecord", flattenReset t s)

/-- `getattr(self, 'uri')`. -/
def uriOf (t : Testrun) : Option Value :=
  alookup t.attrs "uri"

/-- `Testrun._reloadFromPolarion`: fetch by the mirror's URI, assign the raw
snapshot, rebuild, then take the new baseline as a deep copy of the fetched
snapshot.  Returns the trace of collaborator calls alongside the result;
note the raw-snapshot assignment happens before the rebuild's guard. -/
def _reloadFromPolarion (fetch : Except PErr (Option Snapshot)) (t : Testrun) :
    List Call × Except (PErr × Testrun) Testrun :=
  match uriOf t with
  | none => ([], .error (.attributeError "uri", t))
  | some u =>
      ([Call.getTestRunByUri u],
        match fetch with
        | .error e => .error (e, t)
        | .ok s =>
            match _buildWorkitemFromPolarion { t with snapshot := s } with
            | .error (e, t') => .error (e, t')
            | .ok t' => .ok { t' with original := t'.snapshot })

/-- `Testrun.__init__`: fetch by URI when `uri` is given (any fetch failure
reported as "cannot find test run"), otherwise use the supplied snapshot,
otherwise fail; then take the baseline deep copy and build. -/
def TestrunInit (fetch : Except PErr (Option Snapshot)) (uri : Option String)
    (polarion_test_run : Option Snapshot) : List Call × Except PErr Testrun :=
  match uri with
  | some u =>
      ([Call.getTestRunByUri (Value.vStr u)],
        match fetch with
        | .error _ => .error (.notFound u)
        | .ok s =>
            let t1 := { emptyMirror (some u) with snapshot := s, original := s }
            match _buildWorkitemFromPolarion t1 with
            | .error (e, _) => .error e
            | .ok t2 => .ok t2)
  | none =>
      match polarion_test_run with
      | some s =>
          ([],
            let t1 := { emptyMirror none with snapshot := some s, original := some s }
            match _buildWorkitemFromPolarion t1 with
            | .error (e, _) => .error e
            | .ok t2 => .ok t2)
      | none => ([], .error .configuration)

/-- `Testrun.hasTestCase`: key membership in `self._record_dict`. -/
def Testrun.hasTestCase (t : Testrun) (id : String) : Bool :=
  (alookup t.record_dict id).isSome

/-- `Testrun.getTestCase`: negative iterations fail; for a present key the
record list is indexed (out of range is a Python `IndexError`); an absent
key yields `None`. -/
def Testrun.getTestCase (t : Testrun) (id : String) (iteration : Int) :
    Except PErr (Option Record) :=
  if iteration < 0 then .error .invalidIteration
  else if t.hasTestCase id then
    match alookup t.record_dict id with
    | some rs =>
        if h : iteration.toNat < rs.length then .ok (some (rs.get ⟨iteration.toNat, h⟩))
        else .error .indexError
    | none => .error .indexError
  else .ok none

/-- `Testrun.hasAttachment`: `self.attachments is not None`; reading a never
assigned attribute is an `AttributeError`.  Makes no collaborator call. -/
def Testrun.hasAttachment (t : Testrun) : List Call × Except PErr Bool :=
  match alookup t.attrs "attachments" with
  | none => ([], .error (.attributeError "attachments"))
  | some v => ([], .ok (v ≠ Value.vNone : Bool))

/-- `Testrun.getAttachment`: fetch the attachment reference and download its
content (`attResp` and `download` model the collaborator's responses); a
missing attachment is a failure.  Never reloads. -/
def Testrun.getAttachment (attResp : Option AttachmentRef) (download : String → String)
    (t : Testrun) (file_name : String) : List Call × Except PErr String :=
  match uriOf t with
  | none => ([], .error (.attributeError "uri"))
  | some u =>
      match attResp with
      | some a =>
          ([Call.getTestRunAttachment u file_name, Call.downloadFromSvn a.url],
            .ok (download a.url))
      | none =>
          ([Call.getTestRunAttachment u file_name],
            .error (.attachmentNotFound file_name))

/-- `os.path.split(file_path)[1]`: the final path component. -/
def baseName (p : String) : String :=
  (p.splitOn "/").getLastD ""

/-- `Testrun.deleteAttachment`: one delete call with the mirror's URI and
the file name, then an unconditional reload. -/
def Testrun.deleteAttachment (fetch : Except PErr (Option Snapshot)) (t : Testrun)
    (file_name : String) : List Call × Except (PErr × Testrun) Testrun :=
  match uriOf t with
  | none => ([], .error (.attributeError "uri", t))
  | some u =>
      (Call.deleteTestRunAttachment u file_name :: (_reloadFromPolarion fetch t).1,
        (_reloadFromPolarion fetch t).2)

/-- `Testrun.addAttachment`: one upload call with the mirror's URI, the
file's base name, the title and the file content, then an unconditional
reload. -/
def Testrun.addAttachment (fetch : Except PErr (Option Snapshot)) (t : Testrun)
    (file_path title content : String) : List Call × Except (PErr × Testrun) Testrun :=
  match uriOf t with
  | none => ([], .error (.attributeError "uri", t))
  | some u =>
      (Call.addAttachmentToTestRun u (baseName file_path) title content ::
        (_reloadFromPolarion fetch t).1, (_reloadFromPolarion fetch t).2)

/-- `Testrun.updateAttachment`: one update call with the mirror's URI, the
file's base name, the title and the file content, then an unconditional
reload. -/
def Testrun.updateAttachment (fetch : Except PErr (Option Snapshot)) (t : Testrun)
    (file_path title content : String) : List Call × Except (PErr × Testrun) Testrun :=
  match uriOf t with
  | none => ([], .error (.attributeError "uri", t))
  | some u =>
      (Call.updateTestRunAttachment u (baseName file_path) title content ::
        (_reloadFromPolarion fetch t).1, (_reloadFromPolarion fetch t).2)

/-- `dict([(p['name'], p['value']) for p in test_parameters])`: later
duplicates overwrite earlier ones. -/
def paramsDict (ps : List TestParam) : List (String × String) :=
  ps.foldl (fun d p => dinsert d p.name p.value) []

/-- The parameter-resolution loop of `addTestcase`.  When a test-case
parameter name is found among the supplied names, the source looks the dict
up with the literal string `'test_case_parameter_name'` (not the loop
variable); a missing literal key is a Python `KeyError`. -/
def resolveParams (names : List String) (d : List (String × String)) :
    Except PErr (List Param) :=
  match names with
  | [] => .ok []
  | n :: rest =>
      if (alookup d n).isSome then
        match alookup d "test_case_parameter_name" with
        | some v => (resolveParams rest d).map (fun ps => { name := n, value := v } :: ps)
        | none => .error (.keyError "test_case_parameter_name")
      else
        (resolveParams rest d).map (fun ps => { name := n, value := "not specified" } :: ps)

/-- The record value `addTestcase` assembles: the workitem URI split at `%`
into URI and optional revision, plus the resolved parameters. -/
def mkTestRecordType (workitemUri : String) (ps : List Param) : TestRecordType :=
  match workitemUri.splitOn "%" with
  | p0 :: p1 :: _ => { testCaseURI := p0, testCaseRevision := some p1, testParameters := ps }
  | [p0] => { testCaseURI := p0, testCaseRevision := none, testParameters := ps }
  | [] => { testCaseURI := "", testCaseRevision := none, testParameters := ps }

/-- `Testrun.addTestcase`: query the test case's parameter names, resolve
the supplied parameters (a `KeyError` aborts before the add call), then one
add-record call with the mirror's URI and the assembled record, then an
unconditional reload.  `paramNames` models the collaborator's response to
`getTestCaseParameterNames`. -/
def Testrun.addTestcase (fetch : Except PErr (Option Snapshot))
    (paramNames : List String) (t : Testrun) (workitemUri : String)
    (test_parameters : List TestParam) : List Call × Except (PErr × Testrun) Testrun :=
  match resolveParams paramNames (paramsDict test_parameters) with
  | .error e => ([Call.getTestCaseParameterNames workitemUri], .error (e, t))
  | .ok ps =>
      match uriOf t with
      | none =>
          ([Call.getTestCaseParameterNames workitemUri], .error (.attributeError "uri", t))
      | some u =>
          (Call.getTestCaseParameterNames workitemUri ::
            Call.addTestRecordToTestRun u (mkTestRecordType workitemUri ps) ::
            (_reloadFromPolarion fetch t).1, (_reloadFromPolarion fetch t).2)

/-- The diff loop of `Testrun.save`: iterate the current snapshot's keys,
skip the `records` key, compare the mirror attribute against the baseline's
same-named attribute by value equality, and stage differing keys into the
update payload.  A missing attribute on either side is an
`AttributeError`. -/
def stageFields (t : Testrun) (o : Snapshot) (acc : List (String × Value)) :
    List (String × Value) → Except PErr (List (String × Value))
  | [] => .ok acc
  | (k, _) :: rest =>
      if k = "records" then stageFields t o acc rest
      else
        match alookup t.attrs k, alookup o.fields k with
        | some cur, some prev =>
            stageFields t o (if cur ≠ prev then dinsert acc k cur else acc) rest
        | none, _ => .error (.attributeError k)
        | some _, none => .error (.attributeError k)

/-- The full staging step of `Testrun.save`: iterating `__dict__` of a
`None` snapshot, or a never assigned baseline, is an `AttributeError`. -/
def stagePayloadOf (t : Testrun) : Except PErr (List (String × Value)) :=
  match t.snapshot, t.original with
  | some s, some o => stageFields t o [] s.fields
  | none, _ => .error (.attributeError "_polarion_test_run")
  | some _, none => .error (.attributeError "_original_polarion_test_run")

/-- `Testrun.save`: stage the changed attributes; when the payload is empty
do nothing, otherwise attach the mirror's URI, submit one update call and
reload. -/
def Testrun.save (fetch : Except PErr (Option Snapshot)) (t : Testrun) :
    List Call × Except (PErr × Testrun) Testrun :=
  match stagePayloadOf t with
  | .error e => ([], .error (e, t))
  | .ok payload =>
      if payload.length > 0 then
        match uriOf t with
        | none => ([], .error (.attributeError "uri", t))
        | some u =>
            (Call.updateTestRun (dinsert payload "uri" u) :: (_reloadFromPolarion fetch t).1,
              (_reloadFromPolarion fetch t).2)
      else ([], .ok t)

/-- Whether a collaborator call is one of the remote-mutating requests. -/
def Call.isMutating : Call → Bool
  | .updateTestRun _ => true
  | .deleteTestRunAttachment _ _ => true
  | .addAttachmentToTestRun _ _ _ _ => true
  | .updateTestRunAttachment _ _ _ _ => true
  | .addTestRecordToTestRun _ _ => true
  | _ => false

/-- Whether a collaborator call is the reload's fetch. -/
def Call.isReloadFetch : Call → Bool
  | .getTestRunByUri _ => true
  | _ => false

/-- Whether an operation finished without raising. -/
def isOkE {ε α : Type} : Except ε α → Bool
  | .ok _ => true
  | .error _ => false

/-- Whether the resolution guard rejects a fetched snapshot: the snapshot is
null or carries the unresolvable mark. -/
def guardFailsB : Option Snapshot → Bool
  | none => true
  | some x => x.unresolvable

/-! ### Concrete sample data -/

/-- A concrete raw sub-record sequence: `TC1` occurs at positions 0 and 2,
`TC2` at position 1. -/
def sampleRecs : List TRecord :=
  [{ testcase_id := "TC1" }, { testcase_id := "TC2" }, { testcase_id := "TC1" }]

/-- A concrete resolvable snapshot. -/
def sampleSnap : Snapshot :=
  { unresolvable := false
    fields :=
      [("uri", Value.vStr "subterra:testrun:TR-1"),
       ("title", Value.vStr "A"),
       ("attachments", Value.vNone),
       ("records", Value.vRecs sampleRecs)] }

/-- A concrete unresolvable snapshot. -/
def badSnap : Snapshot :=
  { unresolvable := true, fields := [] }

/-- The mirror state right before the build step when constructing from
`sampleSnap`. -/
def preMirror : Testrun :=
  { emptyMirror none with snapshot := some sampleSnap, original := some sampleSnap }

/-- The mirror state right before the build step when constructing from
`badSnap`. -/
def unresolvedMirror : Testrun :=
  { emptyMirror none with snapshot := some badSnap, original := some badSnap }

/-- The mirror a fresh construction from `sampleSnap` produces. -/
def sampleMirror : Testrun :=
  match (TestrunInit (Except.error PErr.remote) none (some sampleSnap)).2 with
  | .ok t => t
  | .error _ => emptyMirror none

/-- `sampleMirror` after a local `setattr` changed the `title` attribute. -/
def changedMirror : Testrun :=
  { sampleMirror with attrs := dinsert sampleMirror.attrs "title" (Value.vStr "B") }

/-- The mirror a successful reload of `changedMirror` (collaborator
returning `sampleSnap`) produces. -/
def reloadedMirror : Testrun :=
  match (_reloadFromPolarion (Except.ok (some sampleSnap)) changedMirror).2 with
  | .ok t => t
  | .error _ => emptyMirror none

/-! ### Lookup and insertion lemmas -/

theorem alookup_dinsert {β : Type} (d : List (String × β)) (k k' : String) (v : β) :
    alookup (dinsert d k v) k' = if k = k' then some v else alookup d k' := by
  induction d with
  | nil => simp [dinsert, alookup]
  | cons hd tl ih =>
      obtain ⟨k₀, v₀⟩ := hd
      simp only [dinsert]
      by_cases h0 : k₀ = k
      · subst h0
        by_cases h1 : k₀ = k'
        · subst h1; simp [alookup]
        · simp [alookup, h1]
      · by_cases h1 : k₀ = k'
        · subst h1
          have hk : ¬ k = k₀ := fun hh => h0 hh.symm
          simp [alookup, h0, hk]
        · simp [alookup, h0, h1, ih]

theorem alookup_eq_of_mem {β : Type} {fs : List (String × β)} {k : String} {v : β}
    (hnd : (fs.map Prod.fst).Nodup) (hm : (k, v) ∈ fs) : alookup fs k = some v := by
  induction fs with
  | nil => cases hm
  | cons hd tl ih =>
      obtain ⟨k₀, v₀⟩ := hd
      simp only [List.map_cons, List.nodup_cons] at hnd
      rcases List.mem_cons.mp hm with h | h
      · obtain ⟨hk, hv⟩ := Prod.mk.injEq .. ▸ h
        subst hk; subst hv
        simp [alookup]
      · have hk : k₀ ≠ k := by
          intro he
          exact hnd.1 (he ▸ (List.mem_map.mpr ⟨(k, v), h, rfl⟩))
        simp [alookup, hk]
        exact ih hnd.2 h

/-! ### Flatten-loop lemmas -/

theorem flattenFields_cons_rec (t : Testrun) (v : Value) (tl : List (String × Value)) :
    flattenFields t (("records", v) :: tl) =
      flattenFields { t with recordsAttr := some v } tl := by
  simp [flattenFields]

theorem flattenFields_cons_ne (t : Testrun) (k : String) (v : Value)
    (tl : List (String × Value)) (h : k ≠ "records") :
    flattenFields t ((k, v) :: tl) =
      flattenFields { t with attrs := dinsert t.attrs k v } tl := by
  simp [flattenFields, h]

theorem flattenFields_const (fs : List (String × Value)) (t : Testrun) :
    (flattenFields t fs).snapshot = t.snapshot ∧
    (flattenFields t fs).original = t.original ∧
    (flattenFields t fs).records = t.records ∧
    (flattenFields t fs).record_dict = t.record_dict := by
  induction fs generalizing t with
  | nil => exact ⟨rfl, rfl, rfl, rfl⟩
  | cons hd tl ih =>
      obtain ⟨k, v⟩ := hd
      by_cases h : k = "records"
      · subst h
        rw [flattenFields_cons_rec]
        exact ih _
      · rw [flattenFields_cons_ne _ _ _ _ h]
        exact ih _

theorem flattenFields_attrs_not_mem (fs : List (String × Value)) (t : Testrun)
    (k : String) (hk : k ∉ fs.map Prod.fst) :
    alookup (flattenFields t fs).attrs k = alookup t.attrs k := by
  induction fs generalizing t with
  | nil => rfl
  | cons hd tl ih =>
      obtain ⟨k₀, v₀⟩ := hd
      simp only [List.map_cons, List.mem_cons, not_or] at hk
      by_cases h : k₀ = "records"
      · subst h
        rw [flattenFields_cons_rec]
        exact ih _ hk.2
      · rw [flattenFields_cons_ne _ _ _ _ h]
        rw [ih _ hk.2]
        simp only [alookup_dinsert]
        rw [if_neg (fun hh => hk.1 hh.symm)]

theorem flattenFields_recordsAttr_not_mem (fs : List (String × Value)) (t : Testrun)
    (hk : "records" ∉ fs.map Prod.fst) :
    (flattenFields t fs).recordsAttr = t.recordsAttr := by
  induction fs generalizing t with
  | nil => rfl
  | cons hd tl ih =>
      obtain ⟨k₀, v₀⟩ := hd
      simp only [List.map_cons, List.mem_cons, not_or] at hk
      have h : k₀ ≠ "records" := fun hh => hk.1 hh.symm
      rw [flattenFields_cons_ne _ _ _ _ h]
      exact ih _ hk.2

theorem flattenFields_attrs_mem (fs : List (String × Value)) (t : Testrun)
    (k : String) (v : Value) (hnd : (fs.map Prod.fst).Nodup)
    (hm : (k, v) ∈ fs) (hk : k ≠ "records") :
    alookup (flattenFields t fs).attrs k = some v := by
  induction fs generalizing t with
  | nil => cases hm
  | cons hd tl ih =>
      obtain ⟨k₀, v₀⟩ := hd
      simp only [List.map_cons, List.nodup_cons] at hnd
      rcases List.mem_cons.mp hm with h | h
      · obtain ⟨hk0, hv0⟩ := Prod.mk.injEq .. ▸ h
        subst hk0; subst hv0
        rw [flattenFields_cons_ne _ _ _ _ hk]
        have hnot : k ∉ tl.map Prod.fst := hnd.1
        rw [flattenFields_attrs_not_mem _ _ _ hnot]
        simp [alookup_dinsert]
      · by_cases h0 : k₀ = "records"
        · subst h0
          rw [flattenFields_cons_rec]
          exact ih _ hnd.2 h
        · rw [flattenFields_cons_ne _ _ _ _ h0]
          exact ih _ hnd.2 h

theorem flattenFields_recordsAttr_mem (fs : List (String × Value)) (t : Testrun)
    (v : Value) (hnd : (fs.map Prod.fst).Nodup) (hm : ("records", v) ∈ fs) :
    (flattenFields t fs).recordsAttr = some v := by
  induction fs generalizing t with
  | nil => cases hm
  | cons hd tl ih =>
      obtain ⟨k₀, v₀⟩ := hd
      simp only [List.map_cons, List.nodup_cons] at hnd
      rcases List.mem_cons.mp hm with h | h
      · obtain ⟨hk0, hv0⟩ := Prod.mk.injEq .. ▸ h
        subst hk0; subst hv0
        rw [flattenFields_cons_rec]
        have hnot : "records" ∉ tl.map Prod.fst := hnd.1
        rw [flattenFields_recordsAttr_not_mem _ _ hnot]
      · by_cases h0 : k₀ = "records"
        · subst h0
          exact absurd (List.mem_map.mpr ⟨("records", v), h, rfl⟩) hnd.1
        · rw [flattenFields_cons_ne _ _ _ _ h0]
          exact ih _ hnd.2 h

/-! ### Record-index build lemmas -/

theorem buildLoop_const (l : List (Nat × TRecord)) (t : Testrun) :
    (buildLoop t l).snapshot = t.snapshot ∧ (buildLoop t l).original = t.original ∧
    (buildLoop t l).attrs = t.attrs ∧ (buildLoop t l).recordsAttr = t.recordsAttr := by
  induction l generalizing t with
  | nil => exact ⟨rfl, rfl, rfl, rfl⟩
  | cons hd tl ih =>
      obtain ⟨i, r⟩ := hd
      simp only [buildLoop]
      exact ih _

theorem buildLoop_records (l : List (Nat × TRecord)) (t : Testrun) :
    (buildLoop t l).records =
      t.records ++ l.map (fun p => { testcase_id := p.2.testcase_id, index := p.1 }) := by
  induction l generalizing t with
  | nil => simp [buildLoop]
  | cons hd tl ih =>
      obtain ⟨i, r⟩ := hd
      simp only [buildLoop, List.map_cons]
      rw [ih]
      simp

theorem alookup_dictAppend (d : List (String × List Record)) (k k' : String) (r : Record) :
    alookup (dictAppend d k r) k' =
      if k = k' then some ((alookup d k').getD [] ++ [r]) else alookup d k' := by
  induction d with
  | nil =>
      simp only [dictAppend, alookup]
      by_cases h : k = k' <;> simp [h]
  | cons hd tl ih =>
      obtain ⟨k₀, rs⟩ := hd
      simp only [dictAppend]
      by_cases h0 : k₀ = k
      · subst h0
        by_cases h1 : k₀ = k'
        · subst h1; simp [alookup]
        · simp [alookup, h1]
      · by_cases h1 : k₀ = k'
        · subst h1
          have hk : ¬ k = k₀ := fun hh => h0 hh.symm
          simp [alookup, h0, hk]
        · simp [alookup, h0, h1, ih]

theorem buildLoop_dict (l : List (Nat × TRecord)) (t : Testrun) (key : String) :
    (alookup (buildLoop t l).record_dict key).getD [] =
      (alookup t.record_dict key).getD [] ++
        (l.map (fun p => ({ testcase_id := p.2.testcase_id, index := p.1 } : Record))).filter
          (fun r => r.testcase_id == key) := by
  induction l generalizing t with
  | nil => simp [buildLoop]
  | cons hd tl ih =>
      obtain ⟨i, r⟩ := hd
      simp only [buildLoop, List.map_cons, List.filter_cons]
      rw [ih]
      by_cases h : r.testcase_id = key
      · simp only [alookup_dictAppend, if_pos h, h]
        simp
      · have hb : (({ testcase_id := r.testcase_id, index := i } : Record).testcase_id == key) = false := by
          simp [h]
        simp only [alookup_dictAppend, if_neg h, hb]
        simp

/-! ### Diff-staging lemmas -/

theorem stageFields_cons_rec (t : Testrun) (o : Snapshot) (acc : List (String × Value))
    (v : Value) (tl : List (String × Value)) :
    stageFields t o acc (("records", v) :: tl) = stageFields t o acc tl := by
  simp [stageFields]

theorem stageFields_cons_some (t : Testrun) (o : Snapshot) (acc : List (String × Value))
    (k : String) (v cur prev : Value) (tl : List (String × Value)) (hk : k ≠ "records")
    (hcur : alookup t.attrs k = some cur) (hprev : alookup o.fields k = some prev) :
    stageFields t o acc ((k, v) :: tl) =
      stageFields t o (if cur ≠ prev then dinsert acc k cur else acc) tl := by
  simp only [stageFields, if_neg hk, hcur, hprev]

theorem stageFields_agree (t : Testrun) (o : Snapshot) (fs : List (String × Value))
    (acc : List (String × Value))
    (h : ∀ p ∈ fs, p.1 ≠ "records" →
      alookup t.attrs p.1 = alookup o.fields p.1 ∧ (alookup t.attrs p.1).isSome) :
    stageFields t o acc fs = .ok acc := by
  induction fs generalizing acc with
  | nil => rfl
  | cons hd tl ih =>
      obtain ⟨k, v⟩ := hd
      by_cases hk : k = "records"
      · subst hk
        rw [stageFields_cons_rec]
        exact ih acc (fun p hp => h p (List.mem_cons_of_mem _ hp))
      · obtain ⟨heq, hsome⟩ := h (k, v) (List.mem_cons_self _ _) hk
        obtain ⟨cur, hcur⟩ := Option.isSome_iff_exists.mp hsome
        have hprev : alookup o.fields k = some cur := heq ▸ hcur
        rw [stageFields_cons_some t o acc k v cur cur tl hk hcur hprev]
        rw [if_neg (fun hh => hh rfl)]
        exact ih acc (fun p hp => h p (List.mem_cons_of_mem _ hp))

theorem stageFields_single (t : Testrun) (o : Snapshot) (fs : List (String × Value))
    (k : String) (cur prev : Value)
    (hnd : (fs.map Prod.fst).Nodup)
    (hcur : alookup t.attrs k = some cur) (hprev : alookup o.fields k = some prev)
    (hne : cur ≠ prev) (hkr : k ≠ "records")
    (hsame : ∀ p ∈ fs, p.1 ≠ k → p.1 ≠ "records" →
      alookup t.attrs p.1 = alookup o.fields p.1 ∧ (alookup t.attrs p.1).isSome)
    (hmem : k ∈ fs.map Prod.fst) :
    stageFields t o [] fs = .ok [(k, cur)] := by
  induction fs with
  | nil => cases hmem
  | cons hd tl ih =>
      obtain ⟨k₀, v₀⟩ := hd
      simp only [List.map_cons, List.nodup_cons] at hnd
      by_cases hk0 : k₀ = k
      · subst hk0
        rw [stageFields_cons_some t o [] k₀ v₀ cur prev tl hkr hcur hprev]
        rw [if_pos hne]
        have hstep : dinsert ([] : List (String × Value)) k₀ cur = [(k₀, cur)] := rfl
        rw [hstep]
        exact stageFields_agree t o tl [(k₀, cur)] (fun p hp hpr => by
          have hpk : p.1 ≠ k₀ := by
            intro he
            exact hnd.1 (he ▸ (List.mem_map.mpr ⟨p, hp, rfl⟩))
          exact hsame p (List.mem_cons_of_mem _ hp) hpk hpr)
      · have hmem' : k ∈ tl.map Prod.fst := by
          rcases List.mem_cons.mp hmem with h | h
          · exact absurd h.symm hk0
          · exact h
        by_cases hr : k₀ = "records"
        · subst hr
          rw [stageFields_cons_rec]
          exact ih hnd.2 (fun p hp => hsame p (List.mem_cons_of_mem _ hp)) hmem'
        · obtain ⟨heq, hsome⟩ := hsame (k₀, v₀) (List.mem_cons_self _ _) hk0 hr
          obtain ⟨c₀, hc₀⟩ := Option.isSome_iff_exists.mp hsome
          have hp₀ : alookup o.fields k₀ = some c₀ := heq ▸ hc₀
          rw [stageFields_cons_some t o [] k₀ v₀ c₀ c₀ tl hr hc₀ hp₀]
          rw [if_neg (fun hh => hh rfl)]
          exact ih hnd.2 (fun p hp => hsame p (List.mem_cons_of_mem _ hp)) hmem'

/-! ### Build and reload destructors -/

theorem flattenReset_const (t : Testrun) (s : Snapshot) :
    (flattenReset t s).snapshot = t.snapshot ∧ (flattenReset t s).original = t.original ∧
    (flattenReset t s).attrs = (flattenFields t s.fields).attrs ∧
    (flattenReset t s).records = [] ∧ (flattenReset t s).record_dict = [] := by
  have h := flattenFields_const s.fields t
  exact ⟨h.1, h.2.1, rfl, rfl, rfl⟩

theorem build_ok_dest (t t' : Testrun) (h : _buildWorkitemFromPolarion t = .ok t') :
    ∃ s, t.snapshot = some s ∧ s.unresolvable = false ∧
      t'.snapshot = t.snapshot ∧ t'.original = t.original ∧
      t'.attrs = (flattenFields t s.fields).attrs := by
  unfold _buildWorkitemFromPolarion at h
  cases hs : t.snapshot with
  | none => rw [hs] at h; exact absurd h (by simp)
  | some s =>
      rw [hs] at h
      simp only at h
      by_cases hu : s.unresolvable = true
      · rw [if_pos hu] at h; exact absurd h (by simp)
      · rw [if_neg hu] at h
        refine ⟨s, rfl, by simpa using hu, ?_⟩
        have hcf := flattenReset_const t s
        cases hv : (flattenReset t s).recordsAttr with
        | none => rw [hv] at h; exact absurd h (by simp)
        | some v =>
            rw [hv] at h
            cases v with
            | vNone =>
                have ht' : t' = flattenReset t s := by
                  simp only [Except.ok.injEq] at h
                  exact h.symm
                subst ht'
                exact ⟨hs ▸ hcf.1, hcf.2.1, hcf.2.2.1⟩
            | vStr s' => exact absurd h (by simp)
            | vInt n => exact absurd h (by simp)
            | vRecs trs =>
                have ht' : t' = buildLoop (flattenReset t s) (pyEnumerate 0 trs) := by
                  simp only [Except.ok.injEq] at h
                  exact h.symm
                subst ht'
                have hbc := buildLoop_const (pyEnumerate 0 trs) (flattenReset t s)
                exact ⟨hs ▸ (hbc.1.trans hcf.1), hbc.2.1.trans hcf.2.1,
                  hbc.2.2.1.trans hcf.2.2.1⟩

theorem reload_ok_original (fetch : Except PErr (Option Snapshot)) (t t' : Testrun)
    (h : (_reloadFromPolarion fetch t).2 = .ok t') : t'.original = t'.snapshot := by
  unfold _reloadFromPolarion at h
  cases hu : uriOf t with
  | none => rw [hu] at h; exact absurd h (by simp)
  | some u =>
      rw [hu] at h
      cases fetch with
      | error e => exact absurd h (by simp)
      | ok s =>
          simp only at h
          cases hb : _buildWorkitemFromPolarion { t with snapshot := s } with
          | error p => rw [hb] at h; exact absurd h (by simp)
          | ok t2 =>
              rw [hb] at h
              simp only [Except.ok.injEq] at h
              subst h
              rfl

theorem build_none_eq (t : Testrun) (h : t.snapshot = none) :
    _buildWorkitemFromPolarion t = .error (.notRetrieved, t) := by
  unfold _buildWorkitemFromPolarion
  rw [h]

theorem build_unres_eq (t : Testrun) (s : Snapshot) (h : t.snapshot = some s)
    (hu : s.unresolvable = true) :
    _buildWorkitemFromPolarion t = .error (.notRetrieved, t) := by
  unfold _buildWorkitemFromPolarion
  rw [h]
  simp only
  rw [if_pos hu]

theorem reload_calls (fetch : Except PErr (Option Snapshot)) (t : Testrun) (u : Value)
    (hu : uriOf t = some u) :
    (_reloadFromPolarion fetch t).1 = [Call.getTestRunByUri u] := by
  unfold _reloadFromPolarion
  rw [hu]

theorem init_snap_build_dest (f0 : Except PErr (Option Snapshot)) (S : Snapshot)
    (t : Testrun) (hinit : (TestrunInit f0 none (some S)).2 = .ok t) :
    _buildWorkitemFromPolarion
      { emptyMirror none with snapshot := some S, original := some S } = .ok t := by
  simp only [TestrunInit] at hinit
  split at hinit
  · exact absurd hinit (by simp)
  next t2 heq =>
    obtain rfl : t2 = t := Except.ok.inj hinit
    exact heq

/-! ### The claims -/

/-- C4: `getTestCase(k, i)` raises the invalid-argument error for every
negative `i` regardless of whether `k` is indexed; for nonnegative `i` it
returns null when `k` is absent from the index, and the `i`-th entry of
`k`'s ordered occurrence list when `i` is within its length (iteration 0
being the Python default argument). -/
theorem getTestCase_spec (t : Testrun) (k : String) (i : Int) :
    (i < 0 → t.getTestCase k i = .error .invalidIteration) ∧
    (0 ≤ i → t.hasTestCase k = false → t.getTestCase k i = .ok none) ∧
    (∀ rs : List Record, 0 ≤ i → alookup t.record_dict k = some rs →
      ∀ h : i.toNat < rs.length,
        t.getTestCase k i = .ok (some (rs.get ⟨i.toNat, h⟩))) := by
  refine ⟨?_, ?_, ?_⟩
  · intro hi
    simp [Testrun.getTestCase, hi]
  · intro hi hk
    have hni : ¬ i < 0 := not_lt.mpr hi
    simp [Testrun.getTestCase, hni, hk]
  · intro rs hi hrs h
    have hni : ¬ i < 0 := not_lt.mpr hi
    have hhas : t.hasTestCase k = true := by simp [Testrun.hasTestCase, hrs]
    simp only [Testrun.getTestCase, if_neg hni, hhas, if_true, hrs]
    rw [dif_pos h]

/-- Witness for C4: iteration -1 faults, an unknown key yields null, and
`getTestCase("TC1", 1)` returns the mirror at original position 2. -/
theorem getTestCase_spec_witness :
    sampleMirror.getTestCase "TC1" (-1) = .error .invalidIteration ∧
    sampleMirror.getTestCase "TC9" 0 = .ok none ∧
    sampleMirror.getTestCase "TC1" 1 =
      .ok (some { testcase_id := "TC1", index := 2 }) := by
  refine ⟨(getTestCase_spec sampleMirror "TC1" (-1)).1 (by decide),
    (getTestCase_spec sampleMirror "TC9" 0).2.1 (by decide) (by decide), ?_⟩
  exact (getTestCase_spec sampleMirror "TC1" 1).2.2
    [{ testcase_id := "TC1", index := 0 }, { testcase_id := "TC1", index := 2 }]
    (by decide) (by decide) (by decide)

/-- C9: for a key present in the index and an iteration at or beyond its
occurrence count, `getTestCase` raises the out-of-range list-index fault
instead of returning null. -/
theorem getTestCase_out_of_range (t : Testrun) (k : String) (i : Int)
    (rs : List Record) (hi : 0 ≤ i) (hrs : alookup t.record_dict k = some rs)
    (hlen : rs.length ≤ i.toNat) : t.getTestCase k i = .error .indexError := by
  have hni : ¬ i < 0 := not_lt.mpr hi
  have hhas : t.hasTestCase k = true := by simp [Testrun.hasTestCase, hrs]
  have hnlt : ¬ i.toNat < rs.length := not_lt.mpr hlen
  simp only [Testrun.getTestCase, if_neg hni, hhas, if_true, hrs]
  rw [dif_neg hnlt]

/-- Witness for C9: `TC2` occurs once, so iteration 1 faults with the index
error — the out-of-range branch is reachable and does not return null. -/
theorem getTestCase_out_of_range_witness :
    sampleMirror.getTestCase "TC2" 1 = .error .indexError :=
  getTestCase_out_of_range sampleMirror "TC2" 1
    [{ testcase_id := "TC2", index := 1 }] (by decide) (by decide) (by decide)

/-- C6: a null or unresolvable snapshot makes the rebuild fail with the
"not retrieved" error before any flattening runs — the state carried by the
failure is exactly the prior state, so no snapshot key was copied and
`records`/`record_dict` were not rebuilt; constructing from an unresolvable
snapshot fails the same way. -/
theorem build_unresolved_guard (t : Testrun) (s : Snapshot)
    (fetch : Except PErr (Option Snapshot)) :
    (t.snapshot = none → _buildWorkitemFromPolarion t = .error (.notRetrieved, t)) ∧
    (t.snapshot = some s → s.unresolvable = true →
      _buildWorkitemFromPolarion t = .error (.notRetrieved, t)) ∧
    (s.unresolvable = true →
      (TestrunInit fetch none (some s)).2 = .error .notRetrieved) := by
  refine ⟨fun h => build_none_eq t h, fun h hu => build_unres_eq t s h hu, fun hu => ?_⟩
  show (match _buildWorkitemFromPolarion
      { emptyMirror none with snapshot := some s, original := some s } with
    | .error (e, _) => Except.error e
    | .ok t2 => Except.ok t2) = Except.error PErr.notRetrieved
  rw [build_unres_eq _ s rfl hu]

/-- Witness for C6 at the concrete states: a missing snapshot, and the
unresolvable `badSnap`, both during rebuild and at construction. -/
theorem build_unresolved_guard_witness :
    _buildWorkitemFromPolarion (emptyMirror none) =
      .error (.notRetrieved, emptyMirror none) ∧
    _buildWorkitemFromPolarion unresolvedMirror =
      .error (.notRetrieved, unresolvedMirror) ∧
    (TestrunInit (Except.error PErr.remote) none (some badSnap)).2 =
      .error PErr.notRetrieved := by
  have h1 := build_unresolved_guard (emptyMirror none) badSnap (Except.error PErr.remote)
  have h2 := build_unresolved_guard unresolvedMirror badSnap (Except.error PErr.remote)
  exact ⟨h1.1 rfl, h2.2.1 rfl rfl, h2.2.2 rfl⟩

/-- C5 amended: supplying neither URI nor snapshot raises the configuration
error, but supplying both is not an error — the URI branch takes precedence
and the supplied snapshot is ignored entirely. -/
theorem init_exclusive_amended (fetch : Except PErr (Option Snapshot))
    (u : String) (s : Option Snapshot) :
    TestrunInit fetch none none = ([], .error .configuration) ∧
    TestrunInit fetch (some u) s = TestrunInit fetch (some u) none :=
  ⟨rfl, rfl⟩

/-- C5 counterexample: constructing with both a URI and a snapshot succeeds
(the fetch-by-URI branch runs), refuting that the combination raises a
configuration error. -/
theorem init_both_supplied_ok :
    isOkE (TestrunInit (Except.ok (some sampleSnap)) (some "subterra:testrun:TR-1")
      (some sampleSnap)).2 = true := rfl

/-- The parameter-resolution loop faults with the literal-key lookup as soon
as one supplied name matches, when `test_case_parameter_name` itself is not
a supplied name. -/
theorem resolveParams_literal_missing (names : List String)
    (d : List (String × String))
    (hlit : alookup d "test_case_parameter_name" = none)
    (n : String) (hn : n ∈ names) (hd : (alookup d n).isSome = true) :
    resolveParams names d = .error (.keyError "test_case_parameter_name") := by
  induction names with
  | nil => cases hn
  | cons m rest ih =>
      by_cases hm : (alookup d m).isSome = true
      · simp [resolveParams, hm, hlit]
      · rcases List.mem_cons.mp hn with h | h
        · exact absurd (h ▸ hd) hm
        · simp only [resolveParams, hm, if_false, Bool.false_eq_true]
          rw [ih h]
          rfl

/-- C10: when some test-case parameter name is among the supplied parameter
names but the literal name `test_case_parameter_name` is not, `addTestcase`
raises the key-lookup fault right after the parameter-name query: the
add-record call is never made, the supplied values are never used, and the
mirror is unchanged. -/
theorem addTestcase_literal_key_bug (fetch : Except PErr (Option Snapshot))
    (paramNames : List String) (t : Testrun) (wuri : String)
    (tps : List TestParam) (n : String) (hn : n ∈ paramNames)
    (hd : (alookup (paramsDict tps) n).isSome = true)
    (hlit : alookup (paramsDict tps) "test_case_parameter_name" = none) :
    t.addTestcase fetch paramNames wuri tps =
      ([Call.getTestCaseParameterNames wuri],
        .error (.keyError "test_case_parameter_name", t)) := by
  unfold Testrun.addTestcase
  rw [resolveParams_literal_missing paramNames (paramsDict tps) hlit n hn hd]

/-- Witness for C10: one supplied parameter `p1` that is also a test-case
parameter name triggers the fault before any add-record call. -/
theorem addTestcase_literal_key_bug_witness :
    sampleMirror.addTestcase (Except.error PErr.remote) ["p1"] "wi-uri"
        [{ name := "p1", value := "v1" }] =
      ([Call.getTestCaseParameterNames "wi-uri"],
        .error (.keyError "test_case_parameter_name", sampleMirror)) :=
  addTestcase_literal_key_bug (Except.error PErr.remote) ["p1"] sampleMirror "wi-uri"
    [{ name := "p1", value := "v1" }] "p1" (by decide) (by decide) (by decide)

/-- C1: a freshly constructed mirror — flatten and baseline taken from the
same snapshot — has nothing to save: `save()` stages an empty payload,
submits no update request and performs no reload, leaving the mirror as it
was. -/
theorem save_fresh_noop (S : Snapshot) (f f0 : Except PErr (Option Snapshot))
    (t : Testrun) (hnd : (S.fields.map Prod.fst).Nodup)
    (hinit : (TestrunInit f0 none (some S)).2 = .ok t) :
    Testrun.save f t = ([], .ok t) := by
  have hbuild := init_snap_build_dest f0 S t hinit
  obtain ⟨s, hs, hres, hsnap, horig, hattrs⟩ := build_ok_dest _ _ hbuild
  have hsS : (some S : Option Snapshot) = some s := hs
  obtain rfl : S = s := Option.some.inj hsS
  have hsnap' : t.snapshot = some S := hsnap
  have horig' : t.original = some S := horig
  have hstage : stagePayloadOf t = .ok [] := by
    unfold stagePayloadOf
    rw [hsnap', horig']
    refine stageFields_agree t S S.fields [] ?_
    intro p hp hpr
    obtain ⟨pk, pv⟩ := p
    have hmemv : alookup S.fields pk = some pv := alookup_eq_of_mem hnd hp
    have hattr : alookup t.attrs pk = some pv := by
      rw [hattrs]
      exact flattenFields_attrs_mem S.fields _ pk pv hnd hp hpr
    exact ⟨by rw [hattr, hmemv], by rw [hattr]; rfl⟩
  unfold Testrun.save
  rw [hstage]
  rfl

/-- Witness for C1: the fresh mirror built from `sampleSnap` saves to an
empty payload with no calls. -/
theorem save_fresh_noop_witness :
    (TestrunInit (Except.error PErr.remote) none (some sampleSnap)).2 =
      .ok sampleMirror ∧
    Testrun.save (Except.error PErr.remote) sampleMirror = ([], .ok sampleMirror) :=
  ⟨rfl, save_fresh_noop sampleSnap (Except.error PErr.remote) (Except.error PErr.remote)
    sampleMirror (by decide) rfl⟩

/-- C2: when exactly one flattened attribute differs (by value) from the
baseline, `save()` stages exactly that key, attaches the mirror's URI,
submits a single update request and then performs the full reload; the
reload is applied to the mirror as it was (the diff-and-push itself never
touches the baseline), and only the reload refreshes the baseline, to the
freshly fetched snapshot. -/
theorem save_single_change (t : Testrun) (s o : Snapshot) (k : String)
    (cur prev : Value) (u : Value) (fetch : Except PErr (Option Snapshot))
    (t' : Testrun)
    (hs : t.snapshot = some s) (ho : t.original = some o)
    (hnd : (s.fields.map Prod.fst).Nodup)
    (hmem : k ∈ s.fields.map Prod.fst) (hkr : k ≠ "records")
    (hcur : alookup t.attrs k = some cur) (hprev : alookup o.fields k = some prev)
    (hne : cur ≠ prev)
    (hsame : ∀ p ∈ s.fields, p.1 ≠ k → p.1 ≠ "records" →
      alookup t.attrs p.1 = alookup o.fields p.1 ∧ (alookup t.attrs p.1).isSome)
    (hu : uriOf t = some u)
    (hrel : (_reloadFromPolarion fetch t).2 = .ok t') :
    Testrun.save fetch t =
      ([Call.updateTestRun (dinsert [(k, cur)] "uri" u), Call.getTestRunByUri u],
        .ok t') ∧
    t'.original = t'.snapshot := by
  constructor
  · have hstage : stagePayloadOf t = .ok [(k, cur)] := by
      unfold stagePayloadOf
      rw [hs, ho]
      exact stageFields_single t o s.fields k cur prev hnd hcur hprev hne hkr hsame hmem
    unfold Testrun.save
    rw [hstage]
    simp only [List.length_cons, List.length_nil, gt_iff_lt, Nat.lt_add_one, if_true,
      Nat.zero_lt_one, hu, reload_calls fetch t u hu, hrel]
  · exact reload_ok_original fetch t t' hrel

/-- Witness for C2: changing `title` on the fresh mirror stages exactly
`title` plus the URI, one update call, then the reload. -/
theorem save_single_change_witness :
    Testrun.save (Except.ok (some sampleSnap)) changedMirror =
      ([Call.updateTestRun [("title", Value.vStr "B"),
          ("uri", Value.vStr "subterra:testrun:TR-1")],
        Call.getTestRunByUri (Value.vStr "subterra:testrun:TR-1")],
        .ok reloadedMirror) ∧
    reloadedMirror.original = reloadedMirror.snapshot :=
  save_single_change changedMirror sampleSnap sampleSnap "title"
    (Value.vStr "B") (Value.vStr "A") (Value.vStr "subterra:testrun:TR-1")
    (Except.ok (some sampleSnap)) reloadedMirror rfl rfl (by decide) (by decide)
    (by decide) rfl rfl (by decide) (by decide) rfl rfl

/-- C3: building from a resolvable snapshot produces `records` in original
sequence order, each mirror carrying its 0-based position, and an index
mapping every business key to the ordered sublist of mirrors at exactly the
positions where the key occurs; a null record collection yields empty
`records` and index without error. -/
theorem build_records_and_index (t : Testrun) (s : Snapshot) (trs : List TRecord)
    (hs : t.snapshot = some s) (hres : s.unresolvable = false)
    (hnd : (s.fields.map Prod.fst).Nodup) :
    (("records", Value.vRecs trs) ∈ s.fields →
      ∃ t', _buildWorkitemFromPolarion t = .ok t' ∧
        t'.records = recordsOfRaw trs ∧
        ∀ key, (alookup t'.record_dict key).getD [] =
          (recordsOfRaw trs).filter (fun r => r.testcase_id == key)) ∧
    (("records", Value.vNone) ∈ s.fields →
      ∃ t', _buildWorkitemFromPolarion t = .ok t' ∧
        t'.records = [] ∧ t'.record_dict = []) := by
  have hbase : ∀ v, ("records", v) ∈ s.fields →
      (flattenReset t s).recordsAttr = some v := by
    intro v hm
    show (flattenFields t s.fields).recordsAttr = some v
    exact flattenFields_recordsAttr_mem s.fields t v hnd hm
  have hresn : ¬ s.unresolvable = true := by simp [hres]
  constructor
  · intro hm
    refine ⟨buildLoop (flattenReset t s) (pyEnumerate 0 trs), ?_, ?_, ?_⟩
    · unfold _buildWorkitemFromPolarion
      rw [hs]
      simp only
      rw [if_neg hresn, hbase _ hm]
    · rw [buildLoop_records]
      have hre : (flattenReset t s).records = [] := rfl
      rw [hre]
      rfl
    · intro key
      rw [buildLoop_dict]
      have hrd : (flattenReset t s).record_dict = [] := rfl
      rw [hrd]
      rfl
  · intro hm
    refine ⟨flattenReset t s, ?_, rfl, rfl⟩
    unfold _buildWorkitemFromPolarion
    rw [hs]
    simp only
    rw [if_neg hresn, hbase _ hm]

/-- Witness for C3: the three-record collection of `sampleSnap` yields the
indexed mirrors with `TC1` at positions 0 and 2. -/
theorem build_records_and_index_witness :
    _buildWorkitemFromPolarion preMirror = .ok sampleMirror ∧
    sampleMirror.records = recordsOfRaw sampleRecs ∧
    (alookup sampleMirror.record_dict "TC1").getD [] =
      (recordsOfRaw sampleRecs).filter (fun r => r.testcase_id == "TC1") := by
  obtain ⟨t', h1, h2, h3⟩ :=
    (build_records_and_index preMirror sampleSnap sampleRecs rfl rfl (by decide)).1
      (by decide)
  have hb : _buildWorkitemFromPolarion preMirror = .ok sampleMirror := rfl
  rw [hb] at h1
  obtain rfl : sampleMirror = t' := Except.ok.inj h1
  exact ⟨hb, h2, h3 "TC1"⟩

/-- C7 counterexample: reloading the valid mirror while the collaborator
returns an unresolvable snapshot fails, but the failure state carries the
freshly assigned raw snapshot — the stored snapshot was mutated on this
failure path, refuting that the full prior state is untouched. -/
theorem reload_failure_mutates_snapshot :
    (_reloadFromPolarion (Except.ok (some badSnap)) sampleMirror).2 =
      .error (.notRetrieved, { sampleMirror with snapshot := some badSnap }) ∧
    ({ sampleMirror with snapshot := some badSnap }).snapshot ≠
      sampleMirror.snapshot := by
  exact ⟨rfl, by decide⟩

/-- C7 amended: if the remote fetch call itself fails, the mirror is fully
untouched; if the fetch succeeds but the snapshot is null or unresolvable,
the rebuild's guard fails before flattening — baseline, flattened
attributes, `records` and `record_dict` are untouched, but the stored raw
snapshot has already been replaced by the fetched value. -/
theorem reload_failure_amended (t : Testrun) (u : Value) (hu : uriOf t = some u) :
    (∀ e : PErr, (_reloadFromPolarion (.error e) t).2 = .error (e, t)) ∧
    (∀ s' : Option Snapshot, guardFailsB s' = true →
      (_reloadFromPolarion (.ok s') t).2 =
        .error (.notRetrieved, { t with snapshot := s' })) := by
  constructor
  · intro e
    unfold _reloadFromPolarion
    rw [hu]
  · intro s' hg
    unfold _reloadFromPolarion
    rw [hu]
    cases s' with
    | none =>
        show (match _buildWorkitemFromPolarion { t with snapshot := none } with
          | .error (e, t'') => Except.error (e, t'')
          | .ok t'' => Except.ok { t'' with original := t''.snapshot }) =
            Except.error (PErr.notRetrieved, { t with snapshot := none })
        rw [build_none_eq { t with snapshot := none } rfl]
    | some x =>
        simp only [guardFailsB] at hg
        show (match _buildWorkitemFromPolarion { t with snapshot := some x } with
          | .error (e, t'') => Except.error (e, t'')
          | .ok t'' => Except.ok { t'' with original := t''.snapshot }) =
            Except.error (PErr.notRetrieved, { t with snapshot := some x })
        rw [build_unres_eq { t with snapshot := some x } x rfl hg]

/-- Witness for C7's amended statement: a failed fetch leaves `sampleMirror`
untouched; a fetch returning null fails the guard with only the raw
snapshot replaced. -/
theorem reload_failure_amended_witness :
    (_reloadFromPolarion (Except.error PErr.remote) sampleMirror).2 =
      .error (PErr.remote, sampleMirror) ∧
    (_reloadFromPolarion (Except.ok none) sampleMirror).2 =
      .error (PErr.notRetrieved, { sampleMirror with snapshot := none }) := by
  have h := reload_failure_amended sampleMirror
    (Value.vStr "subterra:testrun:TR-1") rfl
  exact ⟨h.1 PErr.remote, h.2 none rfl⟩

/-- C8: each mutating operation — delete, add, update attachment, and
`addTestcase` — makes exactly one collaborator call carrying the mirror's
URI and the operation's payload, then unconditionally performs the full
reload (the trailing fetch, whose result replaces the state); the queries
`hasAttachment` and `getAttachment` never make the reload fetch. -/
theorem mutating_ops_single_call_reload (t : Testrun) (u : Value)
    (fetch : Except PErr (Option Snapshot)) (fn fp title content wuri : String)
    (pnames : List String) (tps : List TestParam) (ps : List Param)
    (attResp : Option AttachmentRef) (download : String → String)
    (hu : uriOf t = some u)
    (hps : resolveParams pnames (paramsDict tps) = .ok ps) :
    t.deleteAttachment fetch fn =
      ([Call.deleteTestRunAttachment u fn, Call.getTestRunByUri u],
        (_reloadFromPolarion fetch t).2) ∧
    t.addAttachment fetch fp title content =
      ([Call.addAttachmentToTestRun u (baseName fp) title content,
        Call.getTestRunByUri u], (_reloadFromPolarion fetch t).2) ∧
    t.updateAttachment fetch fp title content =
      ([Call.updateTestRunAttachment u (baseName fp) title content,
        Call.getTestRunByUri u], (_reloadFromPolarion fetch t).2) ∧
    t.addTestcase fetch pnames wuri tps =
      ([Call.getTestCaseParameterNames wuri,
        Call.addTestRecordToTestRun u (mkTestRecordType wuri ps),
        Call.getTestRunByUri u], (_reloadFromPolarion fetch t).2) ∧
    ((t.deleteAttachment fetch fn).1.filter Call.isMutating).length = 1 ∧
    ((t.addAttachment fetch fp title content).1.filter Call.isMutating).length = 1 ∧
    ((t.updateAttachment fetch fp title content).1.filter Call.isMutating).length = 1 ∧
    ((t.addTestcase fetch pnames wuri tps).1.filter Call.isMutating).length = 1 ∧
    (t.hasAttachment).1 = [] ∧
    (t.getAttachment attResp download fn).1.filter Call.isReloadFetch = [] := by
  have h1 : t.deleteAttachment fetch fn =
      ([Call.deleteTestRunAttachment u fn, Call.getTestRunByUri u],
        (_reloadFromPolarion fetch t).2) := by
    simp only [Testrun.deleteAttachment, hu, reload_calls fetch t u hu]
  have h2 : t.addAttachment fetch fp title content =
      ([Call.addAttachmentToTestRun u (baseName fp) title content,
        Call.getTestRunByUri u], (_reloadFromPolarion fetch t).2) := by
    simp only [Testrun.addAttachment, hu, reload_calls fetch t u hu]
  have h3 : t.updateAttachment fetch fp title content =
      ([Call.updateTestRunAttachment u (baseName fp) title content,
        Call.getTestRunByUri u], (_reloadFromPolarion fetch t).2) := by
    simp only [Testrun.updateAttachment, hu, reload_calls fetch t u hu]
  have h4 : t.addTestcase fetch pnames wuri tps =
      ([Call.getTestCaseParameterNames wuri,
        Call.addTestRecordToTestRun u (mkTestRecordType wuri ps),
        Call.getTestRunByUri u], (_reloadFromPolarion fetch t).2) := by
    simp only [Testrun.addTestcase, hps, hu, reload_calls fetch t u hu]
  have h5 : (t.hasAttachment).1 = [] := by
    unfold Testrun.hasAttachment
    cases alookup t.attrs "attachments" <;> rfl
  have h6 : (t.getAttachment attResp download fn).1.filter Call.isReloadFetch = [] := by
    unfold Testrun.getAttachment
    rw [hu]
    cases attResp <;> rfl
  refine ⟨h1, h2, h3, h4, ?_, ?_, ?_, ?_, h5, h6⟩
  · rw [h1]; rfl
  · rw [h2]; rfl
  · rw [h3]; rfl
  · rw [h4]; rfl

/-- Witness for C8: deleting an attachment of `sampleMirror` makes the one
delete call followed by the reload fetch, and `hasAttachment` makes no
call. -/
theorem mutating_ops_single_call_reload_witness :
    sampleMirror.deleteAttachment (Except.ok (some sampleSnap)) "a.txt" =
      ([Call.deleteTestRunAttachment (Value.vStr "subterra:testrun:TR-1") "a.txt",
        Call.getTestRunByUri (Value.vStr "subterra:testrun:TR-1")],
        (_reloadFromPolarion (Except.ok (some sampleSnap)) sampleMirror).2) ∧
    (sampleMirror.hasAttachment).1 = [] := by
  have h := mutating_ops_single_call_reload sampleMirror
    (Value.vStr "subterra:testrun:TR-1") (Except.ok (some sampleSnap))
    "a.txt" "d/f.txt" "T" "data" "wuri" [] [] [] none (fun _ => "") rfl rfl
  exact ⟨h.1, h.2.2.2.2.2.2.2.2.1⟩

end Polarion
